import Mathlib

/-!
# msauth: token refresh and authenticated dispatch

A shallow embedding of `client.go` (package `msauth`): the `Client` record, `refreshToken`,
`GetClient`, `Do`, `New` and `NewWithCustomEndpoint`.

Stateful code is written in state-passing style.  The mutable parts are the `Client` itself
(its `token` field) and the trace of requests, which gets one entry for every `Receive` call on
a builder.  The transport (`sling` bound to a `Doer`, plus JSON decoding) is a parameter: a
function from the history of requests and the request being sent to what `Receive` leaves in
its two targets and returns.  The URL library with which the builder parses and resolves paths
is a parameter as well.
-/

namespace msauth

/-! ## Go's `fmt` for the two calls the client makes -/

namespace fmt

/-- Flag characters accepted after a percent sign (`#`, `0`, `+`, `-`, space). -/
def isFlag (c : Char) : Bool :=
  c = '#' || c = '0' || c = '+' || c = '-' || c = ' '

/-- Number parser of `fmt`, `parsenum`: reads decimal digits from the front of the input; gives
the number, whether any digit was read, and the input left.  A number above one million is
"too large": the parser then reports no number and skips to the end of the input. -/
def parsenum : List Char → Nat → Bool → Nat × Bool × List Char
  | [], num, isnum => (num, isnum, [])
  | c :: cs, num, isnum =>
    if 48 ≤ c.toNat ∧ c.toNat ≤ 57 then
      if num > 1000000 then (0, false, [])
      else parsenum cs (num * 10 + (c.toNat - 48)) true
    else (num, isnum, c :: cs)

/-- Splits the input at the first closing bracket: what stands before it and what follows. -/
def findClose : List Char → Option (List Char × List Char)
  | [] => none
  | c :: cs =>
    if c = ']' then some ([], cs)
    else match findClose cs with
      | none => none
      | some (inside, after) => some (c :: inside, after)

/-- Length in bytes of the UTF-8 encoding, which is what Go's `len` of a string counts. -/
def byteLen (s : List Char) : Nat := (s.map Char.utf8Size).sum

/-- Explicit argument index, `parseArgNumber`, on an input that starts with an opening bracket:
the input after the index and whether the index was well formed (`[n]` with `n` a number). -/
def parseArgNumber (format : List Char) : List Char × Bool :=
  if byteLen format < 3 then (format.drop 1, false)
  else match findClose (format.drop 1) with
    | none => (format.drop 1, false)
    | some (inside, after) =>
      match parsenum inside 0 false with
      | (_, ok, left) => if !ok || !left.isEmpty then (after, false) else (after, true)

/-- Argument index step, `argNumber`, when the call has no operands: the input left, whether an
index was found, and whether the argument number is still good.  With no operands every index
is out of range, so any bracket makes the argument number bad. -/
def argNumber (format : List Char) (goodArgNum : Bool) : List Char × Bool × Bool :=
  match format with
  | '[' :: _ =>
    match parseArgNumber format with
    | (rest, ok) => (rest, ok, false)
  | _ => (format, false, goodArgNum)

/-- Width step of `doPrintf` without operands: text written, input left, `afterIndex`,
`goodArgNum`. -/
def width (format : List Char) (afterIndex goodArgNum : Bool) :
    List Char × List Char × Bool × Bool :=
  match format with
  | '*' :: rest => ("%!(BADWIDTH)".data, rest, false, goodArgNum)
  | _ =>
    match parsenum format 0 false with
    | (_, widPresent, rest) => ([], rest, afterIndex, goodArgNum && !(afterIndex && widPresent))

/-- Precision step of `doPrintf` without operands: text written, input left, `afterIndex`,
`goodArgNum`.  A dot starts a precision only when a character follows it (`i+1 < end`); a dot
at the very end of the format is left to be read as the verb. -/
def precision (format : List Char) (afterIndex goodArgNum : Bool) :
    List Char × List Char × Bool × Bool :=
  match format with
  | '.' :: c :: rest =>
    match argNumber (c :: rest) (goodArgNum && !afterIndex) with
    | (rest1, afterIndex1, good1) =>
      match rest1 with
      | '*' :: rest2 => ("%!(BADPREC)".data, rest2, false, good1)
      | _ =>
        match parsenum rest1 0 false with
        | (_, _, rest2) => ([], rest2, afterIndex1, good1)
  | _ => ([], format, afterIndex, goodArgNum)

/-- One formatting directive of `doPrintf` without operands, on the input that follows a percent
sign: the text written and the input left (`none` when the format ended without a verb). -/
def directive (format : List Char) : List Char × Option (List Char) :=
  match argNumber (format.dropWhile isFlag) true with
  | (s1, afterIndex1, good1) =>
    match width s1 afterIndex1 good1 with
    | (out2, s2, afterIndex2, good2) =>
      match precision s2 afterIndex2 good2 with
      | (out3, s3, afterIndex3, good3) =>
        match (if afterIndex3 then (s3, afterIndex3, good3) else argNumber s3 good3) with
        | (s4, _, good4) =>
          match s4 with
          | [] => (out2 ++ out3 ++ "%!(NOVERB)".data, none)
          | verb :: s5 =>
            if verb = '%' then (out2 ++ out3 ++ ['%'], some s5)
            else if !good4 then (out2 ++ out3 ++ "%!".data ++ [verb] ++ "(BADINDEX)".data, some s5)
            else (out2 ++ out3 ++ "%!".data ++ [verb] ++ "(MISSING)".data, some s5)

/-- Main loop of `doPrintf` for a call without operands: text up to the next percent sign is
copied, then one directive is processed.  Each round consumes at least the percent sign, so
fuel above the length of the format is never used up. -/
def doPrintf : Nat → List Char → List Char
  | 0, _ => []
  | fuel + 1, format =>
    match format.dropWhile (fun c => c != '%') with
    | [] => format.takeWhile (fun c => c != '%')
    | _ :: rest =>
      match directive rest with
      | (out, none) => format.takeWhile (fun c => c != '%') ++ out
      | (out, some rest1) => format.takeWhile (fun c => c != '%') ++ out ++ doPrintf fuel rest1

/-- Formatting of a format string with no operands, as `fmt.Sprintf(format)` does it. -/
def Sprintf0 (format : String) : String :=
  String.mk (doPrintf (format.data.length + 1) format.data)

end fmt

/-- A Go `error` value: `none` is `nil`, `some msg` an error with that message. -/
abbrev error := Option String

/-- The call `fmt.Errorf(format)` with no operands: an error whose message is the formatted
format string. -/
def Errorf0 (format : String) : error := some (fmt.Sprintf0 format)

/-- The call `fmt.Sprintf("/%s/oauth2/token", tenantID)`: the verb `%s` writes a string operand
as it is. -/
def SprintfTokenPath (tenantID : String) : String := "/" ++ tenantID ++ "/oauth2/token"

/-- The call `fmt.Sprintf("%s: %s", a, b)`: each `%s` writes its string operand as it is. -/
def SprintfPair (a b : String) : String := a ++ ": " ++ b

/-! ## The URL library behind the request builder

`Path` of the builder parses its argument with Go's `net/url` and resolves it against the URL
it holds.  The library lies outside the repository.  The builder takes it as a parameter
(`NetURL`); the functions of this section follow the library on the references described at
`parseNoFragment` and give the instance `goURL` on which concrete requests are evaluated. -/

namespace url

/-- Hexadecimal digit, `ishex`. -/
def ishex (c : Char) : Bool :=
  (48 ≤ c.toNat && c.toNat ≤ 57) || (97 ≤ c.toNat && c.toNat ≤ 102) ||
    (65 ≤ c.toNat && c.toNat ≤ 70)

/-- Value of a hexadecimal digit, `unhex`. -/
def unhex (c : Char) : Nat :=
  if 48 ≤ c.toNat && c.toNat ≤ 57 then c.toNat - 48
  else if 97 ≤ c.toNat && c.toNat ≤ 102 then c.toNat - 97 + 10
  else if 65 ≤ c.toNat && c.toNat ≤ 70 then c.toNat - 65 + 10
  else 0

/-- The part of a URL that is being escaped or checked. -/
inductive Mode where
  | path
  | host
  | fragment
  deriving DecidableEq, Repr

/-- Whether a byte must be escaped in the given part, `shouldEscape`. -/
def shouldEscape (b : Nat) (mode : Mode) : Bool :=
  if (97 ≤ b && b ≤ 122) || (65 ≤ b && b ≤ 90) || (48 ≤ b && b ≤ 57) then false
  else if mode = Mode.host && ("!$&()*+,;=:[]<>\"".data.any (fun c => c.toNat = b) || b = 39)
    then false
  else if "-_.~".data.any (fun c => c.toNat = b) then false
  else if "$&+,/:;=?@".data.any (fun c => c.toNat = b) then
    match mode with
    | Mode.path => b = 63
    | Mode.fragment => false
    | Mode.host => true
  else if mode = Mode.fragment && "!()*".data.any (fun c => c.toNat = b) then false
  else true

/-- Whether a text is a valid encoding for the given part, `validEncoded`. -/
def validEncoded (s : List Char) (mode : Mode) : Bool :=
  s.all (fun c =>
    "!$&()*+,;=:@[]%".data.contains c || c.toNat = 39 || !shouldEscape c.toNat mode)

/-- The bytes of the UTF-8 encoding of a character. -/
def utf8Bytes (c : Char) : List Nat :=
  if c.toNat < 128 then [c.toNat]
  else if c.toNat < 2048 then [192 + c.toNat / 64, 128 + c.toNat % 64]
  else if c.toNat < 65536 then
    [224 + c.toNat / 4096, 128 + c.toNat / 64 % 64, 128 + c.toNat % 64]
  else
    [240 + c.toNat / 262144, 128 + c.toNat / 4096 % 64, 128 + c.toNat / 64 % 64,
      128 + c.toNat % 64]

/-- Upper-case hexadecimal digit of a value below sixteen. -/
def upperhex (n : Nat) : Char := "0123456789ABCDEF".data.getD n '0'

/-- One byte as `escape` writes it for the given part. -/
def escapeByte (b : Nat) (mode : Mode) : List Char :=
  if shouldEscape b mode then ['%', upperhex (b / 16), upperhex (b % 16)] else [Char.ofNat b]

/-- Whether every percent sign is followed by two hexadecimal digits, the check of `unescape`;
in a host an escape below `%80` other than `%25` is an error as well, and so is an ASCII
character that would have to be escaped. -/
def validEscapes : List Char → Mode → Bool
  | [], _ => true
  | '%' :: h1 :: h2 :: rest, mode =>
    ishex h1 && ishex h2 && !(mode = Mode.host && unhex h1 < 8 && !(h1 = '2' && h2 = '5')) &&
      validEscapes rest mode
  | '%' :: _, _ => false
  | c :: rest, mode =>
    !(mode = Mode.host && c.toNat < 128 && shouldEscape c.toNat Mode.host) &&
      validEscapes rest mode

/-- The text `escape(unescape(s))` for a text with valid escapes: every escape is decoded and
every byte is written as `escape` writes it. -/
def reescape : List Char → Mode → List Char
  | [], _ => []
  | '%' :: h1 :: h2 :: rest, mode => escapeByte (16 * unhex h1 + unhex h2) mode ++ reescape rest mode
  | c :: rest, mode => (utf8Bytes c).flatMap (fun b => escapeByte b mode) ++ reescape rest mode

/-- The escaped form of a path or fragment that was set from the text `s`, `EscapedPath` and
`EscapedFragment`: the text itself if it is a valid encoding, its re-escaped form otherwise. -/
def escaped (s : List Char) (mode : Mode) : List Char :=
  if validEncoded s mode then s else reescape s mode

/-- The function `strings.Split(s, "/")`. -/
def splitSlash : List Char → List (List Char)
  | [] => [[]]
  | c :: cs =>
    match splitSlash cs with
    | [] => [[c]]
    | seg :: segs => if c = '/' then [] :: seg :: segs else (c :: seg) :: segs

/-- The text before the last slash, if there is a slash. -/
def beforeLastSlash (s : List Char) : Option (List Char) :=
  match (splitSlash s).dropLast with
  | [] => none
  | segs => some (List.intercalate ['/'] segs)

/-- The loop of `resolvePath` over the elements of the path: the text written after the leading
slash, and whether the next element is the first one. -/
def resolveElems : List (List Char) → List Char → Bool → List Char
  | [], str, _ => str
  | elem :: rest, str, first =>
    if elem = ['.'] then resolveElems rest str false
    else if elem = ['.', '.'] then
      match beforeLastSlash str with
      | none => resolveElems rest [] true
      | some before => resolveElems rest before first
    else resolveElems rest (if first then str ++ elem else str ++ ['/'] ++ elem) false

/-- Resolution of a reference path against a base path with removal of dot segments,
`resolvePath`. -/
def resolvePath (base ref : List Char) : List Char :=
  let full :=
    match ref with
    | [] => base
    | '/' :: _ => ref
    | _ =>
      match beforeLastSlash base with
      | none => ref
      | some before => before ++ ['/'] ++ ref
  if full.isEmpty then []
  else
    let elems := splitSlash full
    let str := resolveElems elems [] true
    let last := elems.getLastD []
    let r := ['/'] ++ str ++ (if last = ['.'] || last = ['.', '.'] then ['/'] else [])
    match r with
    | _ :: '/' :: rest => '/' :: rest
    | _ => r

/-- A parsed URL: scheme, opaque part, host, path, query and fragment as `Parse` stores them;
host, path and fragment are kept as written. -/
structure URL where
  Scheme : List Char
  Opaque : List Char
  Host : List Char
  Path : List Char
  ForceQuery : Bool
  RawQuery : List Char
  Fragment : List Char
  deriving DecidableEq, Repr

/-- Scheme splitter, `getScheme`: the scheme and the rest, or an error when the text starts with
a colon. -/
def getScheme (rawURL : List Char) : List Char → List Char → Option (List Char × List Char)
  | _, [] => some ([], rawURL)
  | seen, c :: cs =>
    if c.isAlpha then getScheme rawURL (seen ++ [c]) cs
    else if c.isDigit || c = '+' || c = '-' || c = '.' then
      if seen.isEmpty then some ([], rawURL) else getScheme rawURL (seen ++ [c]) cs
    else if c = ':' then
      if seen.isEmpty then none else some (seen, cs)
    else some ([], rawURL)

/-- Optional port, `validOptionalPort`: nothing, or a colon followed by digits only. -/
def validOptionalPort : List Char → Bool
  | [] => true
  | c :: rest => c = ':' && rest.all Char.isDigit

/-- What follows the last colon of a text. -/
def afterLastColon (h : List Char) : List Char :=
  (h.reverse.takeWhile (fun c => c != ':')).reverse

/-- Host check of `parseHost` for a host without brackets: what starts at the last colon is an
optional port, and the host has valid escapes and no character that a host cannot hold. -/
def validHost (host : List Char) : Bool :=
  (if host.contains ':' then validOptionalPort (':' :: afterLastColon host) else true) &&
    validEscapes host Mode.host

/-- The function `parse` of `net/url` on a reference without its fragment.  Covered are
references without user info (`@` in the authority), without a bracketed host and without a
scheme that is directly followed by a single slash; for the others this model reports an error
where the library may accept the reference. -/
def parseNoFragment (u : List Char) : Option URL :=
  if u.any (fun c => c.toNat < 32 || c.toNat = 127) then none
  else
    match getScheme u [] u with
    | none => none
    | some (scheme0, rest0) =>
      let scheme := scheme0.map Char.toLower
      let force := rest0.getLast? = some '?' && rest0.count '?' = 1
      let rest1 := if force then rest0.dropLast else rest0.takeWhile (fun c => c != '?')
      let query := if force then [] else (rest0.dropWhile (fun c => c != '?')).drop 1
      if !(rest1.head? = some '/') && !scheme.isEmpty then
        some { Scheme := scheme, Opaque := rest1, Host := [], Path := [], ForceQuery := force,
               RawQuery := query, Fragment := [] }
      else if !(rest1.head? = some '/') && (rest1.takeWhile (fun c => c != '/')).contains ':' then
        none
      else if (!scheme.isEmpty || !(rest1.take 3 = ['/', '/', '/'])) && rest1.take 2 = ['/', '/']
      then
        let authority := (rest1.drop 2).takeWhile (fun c => c != '/')
        let rest2 := (rest1.drop 2).dropWhile (fun c => c != '/')
        if authority.contains '@' || authority.head? = some '[' then none
        else if !validHost authority then none
        else if !validEscapes rest2 Mode.path then none
        else
          some { Scheme := scheme, Opaque := [], Host := authority, Path := rest2,
                 ForceQuery := force, RawQuery := query, Fragment := [] }
      else if !scheme.isEmpty then none
      else if !validEscapes rest1 Mode.path then none
      else
        some { Scheme := scheme, Opaque := [], Host := [], Path := rest1, ForceQuery := force,
               RawQuery := query, Fragment := [] }

/-- The function `Parse` of `net/url`: cuts off the fragment, parses the rest and sets the
fragment. -/
def Parse (rawURL : List Char) : Option URL :=
  match parseNoFragment (rawURL.takeWhile (fun c => c != '#')) with
  | none => none
  | some u =>
    let frag := (rawURL.dropWhile (fun c => c != '#')).drop 1
    if frag.isEmpty then some u
    else if !validEscapes frag Mode.fragment then none
    else some { u with Fragment := frag }

/-- The method `ResolveReference` of `net/url`. -/
def ResolveReference (u ref : URL) : URL :=
  let scheme := if ref.Scheme.isEmpty then u.Scheme else ref.Scheme
  if !ref.Scheme.isEmpty || !ref.Host.isEmpty then
    { ref with Scheme := scheme, Path := resolvePath (escaped ref.Path Mode.path) [] }
  else if !ref.Opaque.isEmpty then
    { ref with Scheme := scheme, Host := [], Path := [] }
  else
    let bare := ref.Path.isEmpty && !ref.ForceQuery && ref.RawQuery.isEmpty
    let query := if bare then u.RawQuery else ref.RawQuery
    let frag := if bare && ref.Fragment.isEmpty then u.Fragment else ref.Fragment
    if ref.Path.isEmpty && !u.Opaque.isEmpty then
      { ref with Scheme := scheme, Opaque := u.Opaque, Host := [], Path := [], RawQuery := query,
                 Fragment := frag }
    else
      { ref with Scheme := scheme, Host := u.Host, RawQuery := query, Fragment := frag,
                 Path := resolvePath (escaped u.Path Mode.path) (escaped ref.Path Mode.path) }

/-- The method `String` of `net/url`. -/
def URL.String (u : URL) : List Char :=
  let s1 := if u.Scheme.isEmpty then [] else u.Scheme ++ [':']
  let s2 :=
    if !u.Opaque.isEmpty then s1 ++ u.Opaque
    else
      let auth :=
        if !u.Scheme.isEmpty || !u.Host.isEmpty then
          (if !u.Host.isEmpty || !u.Path.isEmpty then ['/', '/'] else []) ++
            reescape u.Host Mode.host
        else []
      let path := escaped u.Path Mode.path
      let slash := if !path.isEmpty && !(path.head? = some '/') && !u.Host.isEmpty then ['/'] else []
      let buf := s1 ++ auth ++ slash
      let dot :=
        if buf.isEmpty && (path.takeWhile (fun c => c != '/')).contains ':' then ['.', '/']
        else []
      buf ++ dot ++ path
  let s3 := if u.ForceQuery || !u.RawQuery.isEmpty then s2 ++ ['?'] ++ u.RawQuery else s2
  if u.Fragment.isEmpty then s3 else s3 ++ ['#'] ++ escaped u.Fragment Mode.fragment

end url

/-- The URL library as the builder uses it: whether `url.Parse` accepts a text, and the text of
`base.ResolveReference(ref).String()` for two texts that parse. -/
structure NetURL where
  parses : String → Bool
  resolve : String → String → String

/-- The URL library of Go, as far as the functions above follow it. -/
def goURL : NetURL :=
  { parses := fun s => (url.Parse s.data).isSome,
    resolve := fun base ref =>
      match url.Parse base.data, url.Parse ref.data with
      | some u, some v => String.mk (url.ResolveReference u v).String
      | _, _ => "" }

/-! ## Data model -/

/-- Modelled from the spec: the `Token` type with its methods `WantsToBeRefreshed` and
`GetAccessToken` is used by `client.go` and declared in none of the source files.  The spec
gives a token an access-token string and an expiry timestamp (the test sets `token.ExpiresOn`);
times are counted from Go's zero time. -/
structure Token where
  AccessToken : String
  ExpiresOn : Nat
  deriving DecidableEq, Repr

/-- The zero value of `Token`, which a `Client` holds until a refresh succeeds. -/
def Token.zero : Token := { AccessToken := "", ExpiresOn := 0 }

/-- Modelled from the spec: `needs_refresh` is true if the expiry timestamp is at or before the
current time (safety margin 0).  The clock reading is an argument. -/
def Token.WantsToBeRefreshed (t : Token) (now : Nat) : Bool := decide (t.ExpiresOn ≤ now)

/-- Modelled from the spec: the access-token string, used as it is for the `Authorization`
header. -/
def Token.GetAccessToken (t : Token) : String := t.AccessToken

/-- Decoded failure body of the token endpoint, `authError` of `client.go`. -/
structure authError where
  Error : String
  ErrorDescription : String
  ErrorCodes : List Int
  Timestamp : String
  TraceID : String
  CorrelationID : String
  ErrorURI : String
  deriving DecidableEq, Repr

/-- The zero value `authError{}`. -/
def authError.zero : authError :=
  { Error := "", ErrorDescription := "", ErrorCodes := [], Timestamp := "", TraceID := "",
    CorrelationID := "", ErrorURI := "" }

/-- Go's `url.Values` and `http.Header`: keys with their values, kept in insertion order. -/
abbrev Values := List (String × List String)

/-- The method `Add` of `url.Values`: appends the value to the values of the key. -/
def Values.Add : Values → String → String → Values
  | [], key, value => [(key, [value])]
  | (k, vs) :: rest, key, value =>
    if k = key then (k, vs ++ [value]) :: rest else (k, vs) :: Values.Add rest key value

/-- The method `Set`: the key gets exactly this one value. -/
def Values.Set : Values → String → String → Values
  | [], key, value => [(key, [value])]
  | (k, vs) :: rest, key, value =>
    if k = key then (k, [value]) :: rest else (k, vs) :: Values.Set rest key value

/-- The values stored under a key (none when the key is absent). -/
def Values.Get : Values → String → List String
  | [], _ => []
  | (k, vs) :: rest, key => if k = key then vs else Values.Get rest key

/-- A `sling.Doer`, by identity: the default HTTP client, an `http.Client` with a timeout in
nanoseconds, or any other implementation. -/
inductive Doer where
  | defaultClient
  | httpClient (timeout : Nat)
  | custom (id : Nat)
  deriving DecidableEq, Repr

/-- A `context.Context`, by identity. -/
inductive Context where
  | background
  | custom (id : Nat)
  deriving DecidableEq, Repr

/-- Body of a request under construction. -/
inductive Body where
  | empty
  | form (payload : Values)
  | json (payload : String)
  deriving DecidableEq, Repr

/-- A `sling.Sling` request builder: the doer it is bound to, the method, the URL, headers,
query values and body. -/
structure Sling where
  doer : Doer
  method : String
  rawURL : String
  header : Values
  queryValues : List Values
  body : Body
  deriving DecidableEq, Repr

/-- The builder `sling.New()`. -/
def Sling.New : Sling :=
  { doer := Doer.defaultClient, method := "GET", rawURL := "", header := [],
    queryValues := [], body := Body.empty }

/-- The builder method `Doer`: binds the builder to a doer, the default client for `nil`. -/
def Sling.Doer (s : Sling) (doer : Option Doer) : Sling :=
  match doer with
  | none => { s with doer := Doer.defaultClient }
  | some d => { s with doer := d }

/-- The builder method `Path`: parses the URL of the builder and the given path; if both
parse, the URL becomes the path resolved as a reference against it, otherwise the builder is
left as it is. -/
def Sling.Path (U : NetURL) (s : Sling) (path : String) : Sling :=
  if U.parses s.rawURL && U.parses path then { s with rawURL := U.resolve s.rawURL path }
  else s

/-- The builder method `Method`: sets the HTTP method. -/
def Sling.Method (s : Sling) (method : String) : Sling := { s with method := method }

/-- The builder method `Post`: method POST and the path. -/
def Sling.Post (U : NetURL) (s : Sling) (pathURL : String) : Sling :=
  (s.Method "POST").Path U pathURL

/-- The builder method `Set`: sets a header. -/
def Sling.Set (s : Sling) (key value : String) : Sling :=
  { s with header := Values.Set s.header key value }

/-- The builder method `AddHeaders`: adds every value of every given header. -/
def Sling.AddHeaders (s : Sling) (headers : Values) : Sling :=
  { s with header :=
      headers.foldl (fun h kv => kv.2.foldl (fun h1 v => Values.Add h1 kv.1 v) h) s.header }

/-- The builder method `QueryValues`: query parameters for the URL. -/
def Sling.QueryValues (s : Sling) (urlParams : Values) : Sling :=
  { s with queryValues := s.queryValues ++ [urlParams] }

/-- The builder method `BodyForm`: an URL-encoded form body. -/
def Sling.BodyForm (s : Sling) (payload : Values) : Sling := { s with body := Body.form payload }

/-- The builder method `BodyJSON`: a JSON body; a `nil` payload leaves the builder as it is. -/
def Sling.BodyJSON (s : Sling) (bodyJSON : Option String) : Sling :=
  match bodyJSON with
  | none => s
  | some payload => { s with body := Body.json payload }

/-- One call of `Receive` / `ReceiveWithContext`: the builder whose request is handed to its
doer, and the context. -/
structure Request where
  sling : Sling
  ctx : Context
  deriving DecidableEq, Repr

/-- What one `Receive(&newToken, &errResult)` leaves behind: the contents of the success target
and of the failure target after the call (their zero values when nothing was decoded into
them), the status of the response (discarded by the client), and the returned error. -/
structure Outcome where
  newToken : Token
  errResult : authError
  status : Option Nat
  err : error
  deriving DecidableEq, Repr

/-- The transport with everything behind it: which outcome a request gets, given the requests
sent before it. -/
abbrev Transport := List Request → Request → Outcome

/-- The `Client` of `client.go`.  A default setter is a function on builders without effects
of its own. -/
structure Client where
  tenantID : String
  applicationID : String
  clientSecret : String
  token : Token
  doer : Option Doer
  defaultSetter : Option (Sling → Sling)
  azureADAuthEndpoint : String
  resource : String

/-- Result of a method of `Client`: the returned value, the client after the call and the trace
of requests after the call. -/
structure Step (α : Type) where
  val : α
  g : Client
  trace : List Request

/-! ## Operations -/

/-- The constant `AzureADAuthEndpointGlobal` of `constants.go`. -/
def AzureADAuthEndpointGlobal : String := "https://login.microsoftonline.com"

/-- The form payload that `refreshToken` builds with four `Add` calls. -/
def tokenPayload (g : Client) : Values :=
  Values.Add (Values.Add (Values.Add (Values.Add [] "grant_type" "client_credentials")
    "client_id" g.applicationID) "client_secret" g.clientSecret) "resource" g.resource

/-- The request `refreshToken` sends: a fresh builder bound to the doer of the client, `Post` to
the token path, the payload as form body; `Receive` uses the background context. -/
def tokenRequest (U : NetURL) (g : Client) : Request :=
  { sling := ((Sling.New.Doer g.doer).Post U
      (g.azureADAuthEndpoint ++ SprintfTokenPath g.tenantID)).BodyForm (tokenPayload g),
    ctx := Context.background }

/-- The method `refreshToken`: fails at once on an empty tenant ID; otherwise sends the token
request, fails on a transport error or on a decoded non-empty `error` field, and stores the
decoded token only when neither happened. -/
def refreshToken (U : NetURL) (T : Transport) (g : Client) (trace : List Request) : Step error :=
  if g.tenantID = "" then
    { val := Errorf0 "tenant ID is empty", g := g, trace := trace }
  else
    let out := T trace (tokenRequest U g)
    let trace1 := trace ++ [tokenRequest U g]
    if out.err ≠ none ∨ out.errResult.Error ≠ "" then
      if out.err ≠ none then
        { val := out.err, g := g, trace := trace1 }
      else
        { val := Errorf0 (SprintfPair out.errResult.Error out.errResult.ErrorDescription),
          g := g, trace := trace1 }
    else
      { val := none, g := { g with token := out.newToken }, trace := trace1 }

/-- The builder `GetClient` hands out for a client: bound to its doer, with the access token
of the stored token as `Authorization` header. -/
def authorizedBuilder (g : Client) : Sling :=
  (Sling.New.Doer g.doer).Set "Authorization" g.token.GetAccessToken

/-- The step `if g.defaultSetter != nil { client = g.defaultSetter(client) }` of `GetClient`. -/
def applyDefaultSetter (g : Client) (client : Sling) : Sling :=
  match g.defaultSetter with
  | some setter => setter client
  | none => client

/-- The method `GetClient`, called when the clock reads `now`: refreshes the token if it wants
to be refreshed and returns `(nil, err)` when that fails; otherwise builds the authorized
builder and applies the default setter, if one is installed. -/
def GetClient (U : NetURL) (T : Transport) (now : Nat) (g : Client) (trace : List Request) :
    Step (Option Sling × error) :=
  if g.token.WantsToBeRefreshed now then
    match (refreshToken U T g trace).val with
    | some e =>
      { val := (none, some e), g := (refreshToken U T g trace).g,
        trace := (refreshToken U T g trace).trace }
    | none =>
      { val := (some (applyDefaultSetter (refreshToken U T g trace).g
          (authorizedBuilder (refreshToken U T g trace).g)), none),
        g := (refreshToken U T g trace).g, trace := (refreshToken U T g trace).trace }
  else
    { val := (some (applyDefaultSetter g (authorizedBuilder g)), none), g := g, trace := trace }

/-- The method `Do`: gets a builder from `GetClient` and returns its error if there is one;
otherwise completes the builder and sends the request, returning the error of that call.  The
decoded results go to the targets of the caller.  A `nil` builder without error, which
`GetClient` never returns, would be a nil dereference. -/
def Do (U : NetURL) (T : Transport) (now : Nat) (g : Client) (trace : List Request) (ctx : Context)
    (method path : String) (headers urlParams : Values) (bodyJSON : Option String) :
    Step error :=
  let r := GetClient U T now g trace
  match r.val with
  | (_, some e) => { val := some e, g := r.g, trace := r.trace }
  | (none, none) => { val := some "nil pointer dereference", g := r.g, trace := r.trace }
  | (some client, none) =>
    let req : Request :=
      { sling := ((((client.Path U path).Method method).AddHeaders headers).QueryValues
          urlParams).BodyJSON bodyJSON,
        ctx := ctx }
    { val := (T r.trace req).err, g := r.g, trace := r.trace ++ [req] }

/-- The constructor `NewWithCustomEndpoint`: builds the client around a new HTTP client with a
timeout of ten seconds and returns the pointer to it together with the result of
`refreshToken`, which ran on that same client. -/
def NewWithCustomEndpoint (U : NetURL) (T : Transport)
    (tenantID applicationID clientSecret azureADAuthEndpoint resource : String)
    (trace : List Request) : (Option Client × error) × List Request :=
  let g : Client :=
    { tenantID := tenantID, applicationID := applicationID, clientSecret := clientSecret,
      token := Token.zero, doer := some (Doer.httpClient (10 * 1000000000)),
      defaultSetter := none, azureADAuthEndpoint := azureADAuthEndpoint, resource := resource }
  let r := refreshToken U T g trace
  ((some r.g, r.val), r.trace)

/-- The constructor `New`: `NewWithCustomEndpoint` at the global endpoint. -/
def New (U : NetURL) (T : Transport) (tenantID applicationID clientSecret resource : String)
    (trace : List Request) : (Option Client × error) × List Request :=
  NewWithCustomEndpoint U T tenantID applicationID clientSecret AzureADAuthEndpointGlobal resource
    trace

/-- The method `SetDefaults`: installs the default setter. -/
def SetDefaults (g : Client) (setter : Option (Sling → Sling)) : Client :=
  { g with defaultSetter := setter }

/-- Consecutive calls of `GetClient` on the same client, one for each clock reading: the
returned values in call order, the client and the trace after the last call. -/
def GetClientSeq (U : NetURL) (T : Transport) : List Nat → Client → List Request →
    Step (List (Option Sling × error))
  | [], g, trace => { val := [], g := g, trace := trace }
  | now :: rest, g, trace =>
    { val := (GetClient U T now g trace).val ::
        (GetClientSeq U T rest (GetClient U T now g trace).g (GetClient U T now g trace).trace).val,
      g := (GetClientSeq U T rest (GetClient U T now g trace).g (GetClient U T now g trace).trace).g,
      trace :=
        (GetClientSeq U T rest (GetClient U T now g trace).g (GetClient U T now g trace).trace).trace }

/-! ## Sample clients and transports -/

/-- A client with credentials, no token yet and no default setter. -/
def sampleClient : Client :=
  { tenantID := "t1", applicationID := "a1", clientSecret := "s1", token := Token.zero,
    doer := some (Doer.custom 0), defaultSetter := none,
    azureADAuthEndpoint := "https://login.example.com", resource := "https://graph.example.com" }

/-- The sample client without tenant ID. -/
def noTenantClient : Client := { sampleClient with tenantID := "" }

/-- A client whose default setter discards the builder it is given and returns a fresh one. -/
def freshSetterClient : Client :=
  SetDefaults sampleClient (some (fun _ => Sling.New))

/-- The sample client with the tenant ID `..`. -/
def dotTenantClient : Client := { sampleClient with tenantID := ".." }

/-- The sample client with the tenant ID `%zz`. -/
def badEscapeClient : Client := { sampleClient with tenantID := "%zz" }

/-- The sample client holding a token that expires at time 3600. -/
def validClient : Client :=
  { sampleClient with token := { AccessToken := "OLD", ExpiresOn := 3600 } }

/-- The client with the valid token and a default setter that discards the builder it is given
and returns a fresh one. -/
def validFreshSetterClient : Client :=
  SetDefaults validClient (some (fun _ => Sling.New))

/-- The client that the constructors build before the first refresh: the struct literal of
`NewWithCustomEndpoint`. -/
def constructedClient (tenantID applicationID clientSecret azureADAuthEndpoint resource : String) :
    Client :=
  { tenantID := tenantID, applicationID := applicationID, clientSecret := clientSecret,
    token := Token.zero, doer := some (Doer.httpClient (10 * 1000000000)),
    defaultSetter := none, azureADAuthEndpoint := azureADAuthEndpoint, resource := resource }

/-- A token endpoint that answers 200 with the token `AAA`, valid until time 7200. -/
def okTransport : Transport := fun _ _ =>
  { newToken := { AccessToken := "AAA", ExpiresOn := 7200 }, errResult := authError.zero,
    status := some 200, err := none }

/-- A token endpoint that answers 200 with an error body and a token next to it. -/
def rejectingTransport : Transport := fun _ _ =>
  { newToken := { AccessToken := "AAA", ExpiresOn := 7200 },
    errResult := { authError.zero with Error := "invalid_client", ErrorDescription := "bad secret" },
    status := some 200, err := none }

/-- A transport that cannot reach the server. -/
def brokenTransport : Transport := fun _ _ =>
  { newToken := Token.zero, errResult := authError.zero, status := none,
    err := some "dial tcp: connection refused" }

/-- A token endpoint that answers 204 without a body: nothing is decoded and no error is
returned. -/
def noContentTransport : Transport := fun _ _ =>
  { newToken := Token.zero, errResult := authError.zero, status := some 204, err := none }

/-- A token endpoint whose error description contains a percent sign. -/
def percentTransport : Transport := fun _ _ =>
  { newToken := Token.zero,
    errResult :=
      { authError.zero with Error := "invalid_client", ErrorDescription := "100% bad secret" },
    status := some 401, err := none }

/-! ## Lemmas on `refreshToken` -/

/-- The call `fmt.Errorf` never returns nil. -/
theorem Errorf0_ne_none (format : String) : Errorf0 format ≠ none := by
  simp [Errorf0]

/-- With an empty tenant ID `refreshToken` returns at once. -/
theorem refreshToken_of_empty (U : NetURL) (T : Transport) (g : Client) (trace : List Request)
    (h : g.tenantID = "") :
    refreshToken U T g trace = { val := Errorf0 "tenant ID is empty", g := g, trace := trace } := by
  simp [refreshToken, h]

/-- With a tenant ID, `refreshToken` sends the token request and nothing else. -/
theorem refreshToken_trace (U : NetURL) (T : Transport) (g : Client) (trace : List Request)
    (h : g.tenantID ≠ "") :
    (refreshToken U T g trace).trace = trace ++ [tokenRequest U g] := by
  unfold refreshToken
  rw [if_neg h]
  dsimp only
  split_ifs <;> rfl

/-- A failed `refreshToken` leaves the client as it was. -/
theorem refreshToken_fail_client (U : NetURL) (T : Transport) (g : Client) (trace : List Request)
    (h : (refreshToken U T g trace).val ≠ none) : (refreshToken U T g trace).g = g := by
  unfold refreshToken at h ⊢
  dsimp only at h ⊢
  split_ifs at h ⊢ <;> first | rfl | exact absurd rfl h

/-- The method `refreshToken` fails exactly when the tenant ID is empty, the transport reports an
error, or the decoded `error` field is not empty. -/
theorem refreshToken_fails_iff (U : NetURL) (T : Transport) (g : Client) (trace : List Request) :
    (refreshToken U T g trace).val ≠ none ↔
      (g.tenantID = "" ∨ (T trace (tokenRequest U g)).err ≠ none ∨
        (T trace (tokenRequest U g)).errResult.Error ≠ "") := by
  unfold refreshToken
  dsimp only
  split_ifs with h1 h2 h3
  · exact ⟨fun _ => Or.inl h1, fun _ => Errorf0_ne_none _⟩
  · exact ⟨fun _ => Or.inr (Or.inl h3), fun _ => h3⟩
  · exact ⟨fun _ => Or.inr h2, fun _ => Errorf0_ne_none _⟩
  · exact ⟨fun h => absurd rfl h, fun h => by
      rcases h with h | h | h
      · exact absurd h h1
      · exact absurd (Or.inl h) h2
      · exact absurd (Or.inr h) h2⟩

/-- The URL of the token request: the token path resolved against the empty URL of a fresh
builder, or the empty URL when one of the two does not parse. -/
theorem tokenRequest_rawURL (U : NetURL) (g : Client) :
    (tokenRequest U g).sling.rawURL =
      if U.parses "" && U.parses (g.azureADAuthEndpoint ++ "/" ++ g.tenantID ++ "/oauth2/token")
      then U.resolve "" (g.azureADAuthEndpoint ++ "/" ++ g.tenantID ++ "/oauth2/token")
      else "" := by
  have hS : g.azureADAuthEndpoint ++ SprintfTokenPath g.tenantID =
      g.azureADAuthEndpoint ++ "/" ++ g.tenantID ++ "/oauth2/token" := by
    simp [SprintfTokenPath, String.append_assoc]
  cases hd : g.doer <;>
    simp only [tokenRequest, Sling.BodyForm, Sling.Post, Sling.Path, Sling.Method, Sling.Doer,
      Sling.New, hd, hS] <;>
    split_ifs <;> rfl

/-- Method and body of the token request. -/
theorem tokenRequest_method_body (U : NetURL) (g : Client) :
    (tokenRequest U g).sling.method = "POST" ∧
    (tokenRequest U g).sling.body =
      Body.form [("grant_type", ["client_credentials"]), ("client_id", [g.applicationID]),
        ("client_secret", [g.clientSecret]), ("resource", [g.resource])] ∧
    (tokenRequest U g).ctx = Context.background := by
  cases hd : g.doer <;>
    simp only [tokenRequest, Sling.BodyForm, Sling.Post, Sling.Path, Sling.Method, Sling.Doer,
      Sling.New, hd] <;>
    split_ifs <;> simp [tokenPayload, Values.Add]

/-- The method `refreshToken` never changes the credentials of the client. -/
theorem refreshToken_credentials (U : NetURL) (T : Transport) (g : Client) (trace : List Request) :
    (refreshToken U T g trace).g.tenantID = g.tenantID ∧
    (refreshToken U T g trace).g.applicationID = g.applicationID ∧
    (refreshToken U T g trace).g.clientSecret = g.clientSecret ∧
    (refreshToken U T g trace).g.azureADAuthEndpoint = g.azureADAuthEndpoint ∧
    (refreshToken U T g trace).g.resource = g.resource := by
  unfold refreshToken
  dsimp only
  split_ifs <;> exact ⟨rfl, rfl, rfl, rfl, rfl⟩

/-- A successful `refreshToken` sent the token request and stored the decoded token. -/
theorem refreshToken_ok (U : NetURL) (T : Transport) (g : Client) (trace : List Request)
    (h : (refreshToken U T g trace).val = none) :
    g.tenantID ≠ "" ∧
    (refreshToken U T g trace).g = { g with token := (T trace (tokenRequest U g)).newToken } ∧
    (refreshToken U T g trace).trace = trace ++ [tokenRequest U g] := by
  unfold refreshToken at h ⊢
  dsimp only at h ⊢
  split_ifs at h ⊢ with h1 h2 h3
  · exact absurd h (Errorf0_ne_none _)
  · exact absurd h h3
  · exact absurd h (Errorf0_ne_none _)
  · exact ⟨h1, rfl, rfl⟩

/-! ## Formatting without percent signs -/

/-- A format string without a percent sign is written as it is. -/
theorem Sprintf0_of_no_percent (format : String) (h : '%' ∉ format.data) :
    fmt.Sprintf0 format = format := by
  have hd : format.data.dropWhile (fun c => c != '%') = [] := by
    rw [List.dropWhile_eq_nil_iff]
    intro c hc
    have : c ≠ '%' := fun e => h (e ▸ hc)
    simpa using this
  have ht : format.data.takeWhile (fun c => c != '%') = format.data := by
    rw [List.takeWhile_eq_self_iff]
    intro c hc
    have : c ≠ '%' := fun e => h (e ▸ hc)
    simpa using this
  unfold fmt.Sprintf0 fmt.doPrintf
  simp only [hd, ht]

/-! ## The claims -/

/-- C1: for every client whose tenant ID is the empty string, whatever its other fields, the
transport and the requests sent before, `refreshToken` returns a non-nil error and sends no
request: the trace after the call is the trace before it, so from an empty trace it is empty. -/
theorem refreshToken_empty_tenant_fails_without_request (U : NetURL) (T : Transport) (g : Client)
    (trace : List Request) (h : g.tenantID = "") :
    (refreshToken U T g trace).val ≠ none ∧
    (refreshToken U T g trace).trace = trace ∧
    (refreshToken U T g []).trace = [] := by
  rw [refreshToken_of_empty U T g trace h, refreshToken_of_empty U T g [] h]
  exact ⟨Errorf0_ne_none _, rfl, rfl⟩

/-- Witness of C1 at the sample client without tenant ID, with a transport that would answer
with a token. -/
theorem refreshToken_empty_tenant_fails_without_request_witness :
    noTenantClient.tenantID = "" ∧
    (refreshToken goURL okTransport noTenantClient []).val = some "tenant ID is empty" ∧
    ((refreshToken goURL okTransport noTenantClient []).val ≠ none ∧
     (refreshToken goURL okTransport noTenantClient []).trace = [] ∧
     (refreshToken goURL okTransport noTenantClient []).trace = []) :=
  ⟨rfl, by decide,
    refreshToken_empty_tenant_fails_without_request goURL okTransport noTenantClient [] rfl⟩

/-- C2: for every client with a non-empty tenant ID, if the exchange with the token endpoint
reports no transport error and the decoded `authError` has a non-empty `error` field, then
`refreshToken` returns a non-nil error, whatever the status and the decoded token are. -/
theorem refreshToken_error_field_fails (U : NetURL) (T : Transport) (g : Client) (trace : List Request)
    (_hT : g.tenantID ≠ "")
    (_hErr : (T trace (tokenRequest U g)).err = none)
    (hField : (T trace (tokenRequest U g)).errResult.Error ≠ "") :
    (refreshToken U T g trace).val ≠ none := by
  intro h
  have hok := refreshToken_ok U T g trace h
  unfold refreshToken at h
  rw [if_neg hok.1] at h
  dsimp only at h
  rw [if_pos (Or.inr hField)] at h
  split_ifs at h with h3
  · exact h3 h
  · exact Errorf0_ne_none _ h

/-- Witness of C2: a 200 response that carries both a token and an error body. -/
theorem refreshToken_error_field_fails_witness :
    (rejectingTransport [] (tokenRequest goURL sampleClient)).status = some 200 ∧
    (rejectingTransport [] (tokenRequest goURL sampleClient)).newToken.AccessToken = "AAA" ∧
    (refreshToken goURL rejectingTransport sampleClient []).val ≠ none :=
  ⟨rfl, rfl,
    refreshToken_error_field_fails goURL rejectingTransport sampleClient [] (by decide) rfl
      (by decide)⟩

/-- C3: `refreshToken` is atomic on the stored token.  For every client, transport and trace:
if it returns a non-nil error, the stored token (indeed the whole client) is what it was before
the call; if it returns nil, the stored token is exactly the token decoded from the response to
the token request, and no other field of the client changed. -/
theorem refreshToken_atomic (U : NetURL) (T : Transport) (g : Client) (trace : List Request) :
    ((refreshToken U T g trace).val ≠ none →
      (refreshToken U T g trace).g.token = g.token ∧ (refreshToken U T g trace).g = g) ∧
    ((refreshToken U T g trace).val = none →
      (refreshToken U T g trace).g.token = (T trace (tokenRequest U g)).newToken ∧
      (refreshToken U T g trace).g = { g with token := (T trace (tokenRequest U g)).newToken }) := by
  constructor
  · intro h
    rw [refreshToken_fail_client U T g trace h]
    exact ⟨rfl, rfl⟩
  · intro h
    rw [(refreshToken_ok U T g trace h).2.1]
    exact ⟨rfl, rfl⟩

/-- Instances of C3: a rejected refresh and a broken transport leave the old token, a successful
refresh stores the new one. -/
theorem refreshToken_atomic_witness :
    (refreshToken goURL rejectingTransport validClient []).val ≠ none ∧
    (refreshToken goURL rejectingTransport validClient []).g.token =
      { AccessToken := "OLD", ExpiresOn := 3600 } ∧
    (refreshToken goURL brokenTransport validClient []).g.token =
      { AccessToken := "OLD", ExpiresOn := 3600 } ∧
    (refreshToken goURL okTransport validClient []).val = none ∧
    (refreshToken goURL okTransport validClient []).g.token =
      { AccessToken := "AAA", ExpiresOn := 7200 } :=
  ⟨by decide,
    ((refreshToken_atomic goURL rejectingTransport validClient []).1 (by decide)).1,
    ((refreshToken_atomic goURL brokenTransport validClient []).1 (by decide)).1,
    by decide,
    ((refreshToken_atomic goURL okTransport validClient []).2 (by decide)).1⟩

/-- C9 as stated fails: the target is not always the string handed to `Post`.  With the tenant
ID `..` the builder resolves the dot segment and the request goes to
`https://login.example.com/oauth2/token`; with the tenant ID `%zz` the string does not parse,
the builder keeps its empty URL and the request has no target. -/
theorem refreshToken_request_target_differs :
    (dotTenantClient.tenantID ≠ "" ∧
      dotTenantClient.azureADAuthEndpoint ++ "/" ++ dotTenantClient.tenantID ++ "/oauth2/token" =
        "https://login.example.com/../oauth2/token" ∧
      (refreshToken goURL okTransport dotTenantClient []).trace.map (fun r => r.sling.rawURL) =
        ["https://login.example.com/oauth2/token"]) ∧
    (badEscapeClient.tenantID ≠ "" ∧
      badEscapeClient.azureADAuthEndpoint ++ "/" ++ badEscapeClient.tenantID ++ "/oauth2/token" =
        "https://login.example.com/%zz/oauth2/token" ∧
      (refreshToken goURL okTransport badEscapeClient []).trace.map (fun r => r.sling.rawURL) =
        [""]) := by
  decide

/-- C9, amended: for every URL library and every client with a non-empty tenant ID,
`refreshToken` sends exactly one request, the token request.  It is a POST built by handing
exactly the string `azureADAuthEndpoint ++ "/" ++ tenantID ++ "/oauth2/token"` to `Post` on a
fresh builder: its target is that string resolved as a URL reference against the empty URL when
both parse (so the string itself whenever resolution returns it unchanged), and the empty URL
otherwise.  Its form body has exactly the four fields `grant_type`, `client_id`,
`client_secret` and `resource`, one value each. -/
theorem refreshToken_request (U : NetURL) (T : Transport) (g : Client) (trace : List Request)
    (h : g.tenantID ≠ "") :
    (refreshToken U T g trace).trace = trace ++ [tokenRequest U g] ∧
    (tokenRequest U g).sling.method = "POST" ∧
    (tokenRequest U g).sling.rawURL =
      (if U.parses "" && U.parses (g.azureADAuthEndpoint ++ "/" ++ g.tenantID ++ "/oauth2/token")
       then U.resolve "" (g.azureADAuthEndpoint ++ "/" ++ g.tenantID ++ "/oauth2/token")
       else "") ∧
    (U.parses "" = true →
      U.parses (g.azureADAuthEndpoint ++ "/" ++ g.tenantID ++ "/oauth2/token") = true →
      U.resolve "" (g.azureADAuthEndpoint ++ "/" ++ g.tenantID ++ "/oauth2/token") =
        g.azureADAuthEndpoint ++ "/" ++ g.tenantID ++ "/oauth2/token" →
      (tokenRequest U g).sling.rawURL =
        g.azureADAuthEndpoint ++ "/" ++ g.tenantID ++ "/oauth2/token") ∧
    (tokenRequest U g).sling.body =
      Body.form [("grant_type", ["client_credentials"]), ("client_id", [g.applicationID]),
        ("client_secret", [g.clientSecret]), ("resource", [g.resource])] := by
  refine ⟨refreshToken_trace U T g trace h, (tokenRequest_method_body U g).1,
    tokenRequest_rawURL U g, ?_, (tokenRequest_method_body U g).2.1⟩
  intro h1 h2 h3
  rw [tokenRequest_rawURL, h1, h2, h3]
  rfl

/-- Witness of amended C9 at the sample client: the token path parses and resolves to itself, so
the one request is a POST to `https://login.example.com/t1/oauth2/token`. -/
theorem refreshToken_request_witness :
    (refreshToken goURL okTransport sampleClient []).trace = [tokenRequest goURL sampleClient] ∧
    (tokenRequest goURL sampleClient).sling.method = "POST" ∧
    (tokenRequest goURL sampleClient).sling.rawURL = "https://login.example.com/t1/oauth2/token" ∧
    (tokenRequest goURL sampleClient).sling.body =
      Body.form [("grant_type", ["client_credentials"]), ("client_id", ["a1"]),
        ("client_secret", ["s1"]), ("resource", ["https://graph.example.com"])] :=
  ⟨(refreshToken_request goURL okTransport sampleClient [] (by decide)).1,
    (refreshToken_request goURL okTransport sampleClient [] (by decide)).2.1, by decide,
    by decide⟩

/-- The header that `GetClient` sets on its builder is the access token of the stored token. -/
theorem authorizedBuilder_header (g : Client) :
    Values.Get (authorizedBuilder g).header "Authorization" = [g.token.GetAccessToken] := by
  cases hd : g.doer <;>
    simp [authorizedBuilder, Sling.Set, Sling.Doer, Sling.New, Values.Set, Values.Get, hd]

/-- On a token that does not want to be refreshed, `GetClient` touches nothing. -/
theorem GetClient_of_valid (U : NetURL) (T : Transport) (now : Nat) (g : Client) (trace : List Request)
    (h : g.token.WantsToBeRefreshed now = false) :
    GetClient U T now g trace =
      { val := (some (applyDefaultSetter g (authorizedBuilder g)), none), g := g,
        trace := trace } := by
  simp [GetClient, h]

/-- On a token that wants to be refreshed, `GetClient` passes a refresh error on. -/
theorem GetClient_of_refresh_error (U : NetURL) (T : Transport) (now : Nat) (g : Client)
    (trace : List Request) (e : String) (h : g.token.WantsToBeRefreshed now = true)
    (he : (refreshToken U T g trace).val = some e) :
    GetClient U T now g trace =
      { val := (none, some e), g := (refreshToken U T g trace).g,
        trace := (refreshToken U T g trace).trace } := by
  simp [GetClient, h, he]

/-- On a token that wants to be refreshed, `GetClient` builds on the refreshed client. -/
theorem GetClient_of_refresh_ok (U : NetURL) (T : Transport) (now : Nat) (g : Client)
    (trace : List Request) (h : g.token.WantsToBeRefreshed now = true)
    (he : (refreshToken U T g trace).val = none) :
    GetClient U T now g trace =
      { val := (some (applyDefaultSetter (refreshToken U T g trace).g
          (authorizedBuilder (refreshToken U T g trace).g)), none),
        g := (refreshToken U T g trace).g, trace := (refreshToken U T g trace).trace } := by
  simp [GetClient, h, he]

/-- C5: for every client whose stored token wants to be refreshed and every call of `Do` during
which the refresh fails with an error `e`, `Do` returns `e`, the stored token is unchanged, and
no downstream request is issued: the trace after the call is the trace before it, or that trace
followed by the token request alone. -/
theorem Do_refresh_failure (U : NetURL) (T : Transport) (now : Nat) (g : Client) (trace : List Request)
    (ctx : Context) (method path : String) (headers urlParams : Values)
    (bodyJSON : Option String) (e : String)
    (hWants : g.token.WantsToBeRefreshed now = true)
    (hFail : (refreshToken U T g trace).val = some e) :
    (Do U T now g trace ctx method path headers urlParams bodyJSON).val = some e ∧
    (Do U T now g trace ctx method path headers urlParams bodyJSON).g.token = g.token ∧
    ((Do U T now g trace ctx method path headers urlParams bodyJSON).trace = trace ∨
     (Do U T now g trace ctx method path headers urlParams bodyJSON).trace =
       trace ++ [tokenRequest U g]) := by
  have hg : (refreshToken U T g trace).g = g :=
    refreshToken_fail_client U T g trace (by rw [hFail]; simp)
  have hD : Do U T now g trace ctx method path headers urlParams bodyJSON =
      { val := some e, g := (refreshToken U T g trace).g,
        trace := (refreshToken U T g trace).trace } := by
    simp [Do, GetClient_of_refresh_error U T now g trace e hWants hFail]
  rw [hD]
  refine ⟨rfl, by rw [hg], ?_⟩
  by_cases ht : g.tenantID = ""
  · left
    rw [refreshToken_of_empty U T g trace ht]
  · right
    exact refreshToken_trace U T g trace ht

/-- Witness of C5: the token endpoint rejects the credentials (one request, the token request),
and the tenant ID is missing (no request at all). -/
theorem Do_refresh_failure_witness :
    ((Do goURL rejectingTransport 5000 validClient [] Context.background "GET" "me" [] [] none).val =
        some "invalid_client: bad secret" ∧
      (Do goURL rejectingTransport 5000 validClient [] Context.background "GET" "me" [] []
        none).g.token = validClient.token ∧
      ((Do goURL rejectingTransport 5000 validClient [] Context.background "GET" "me" [] []
          none).trace = [] ∨
        (Do goURL rejectingTransport 5000 validClient [] Context.background "GET" "me" [] []
          none).trace = [] ++ [tokenRequest goURL validClient])) ∧
    (Do goURL rejectingTransport 5000 validClient [] Context.background "GET" "me" [] [] none).trace =
      [tokenRequest goURL validClient] :=
  ⟨Do_refresh_failure goURL rejectingTransport 5000 validClient [] Context.background "GET" "me" [] []
      none "invalid_client: bad secret" (by decide) (by decide),
    by decide⟩

/-- C7 as stated fails for the builder that is returned: the client holds a token valid until
3600 and a default setter that returns a fresh builder; `GetClient` at time 10 returns a nil
error and sends nothing, and the returned builder carries no `Authorization` header, not the
access token `OLD` of the stored token. -/
theorem GetClient_valid_token_setter_drops_header :
    validFreshSetterClient.token.WantsToBeRefreshed 10 = false ∧
    validFreshSetterClient.token.GetAccessToken = "OLD" ∧
    (GetClient goURL okTransport 10 validFreshSetterClient []).val.2 = none ∧
    (GetClient goURL okTransport 10 validFreshSetterClient []).trace = [] ∧
    (GetClient goURL okTransport 10 validFreshSetterClient []).val.1.map
      (fun b => Values.Get b.header "Authorization") = some [] := by
  decide

/-- C7, amended: for every client whose stored token does not want to be refreshed at any of
the clock readings of a sequence of consecutive `GetClient` calls (any number of them), every
call returns a nil error, no request is sent and the client is unchanged.  Every call sets the
same `Authorization` value, `GetAccessToken()` of the stored token, on a new builder: without a
setter of defaults that builder is what each call returns, and when one is installed each call
returns what the setter makes of that builder. -/
theorem GetClient_idempotent_on_valid_token (U : NetURL) (T : Transport) (nows : List Nat)
    (g : Client) (trace : List Request)
    (h : ∀ now ∈ nows, g.token.WantsToBeRefreshed now = false) :
    (g.defaultSetter = none →
      (GetClientSeq U T nows g trace).val =
        List.replicate nows.length (some (authorizedBuilder g), none)) ∧
    (∀ setter, g.defaultSetter = some setter →
      (GetClientSeq U T nows g trace).val =
        List.replicate nows.length (some (setter (authorizedBuilder g)), none)) ∧
    Values.Get (authorizedBuilder g).header "Authorization" = [g.token.GetAccessToken] ∧
    (∀ r ∈ (GetClientSeq U T nows g trace).val, r.2 = none ∧ r.1 ≠ none) ∧
    (GetClientSeq U T nows g trace).val.length = nows.length ∧
    (GetClientSeq U T nows g trace).g = g ∧
    (GetClientSeq U T nows g trace).trace = trace := by
  have hseq : GetClientSeq U T nows g trace =
      { val := List.replicate nows.length
          (some (applyDefaultSetter g (authorizedBuilder g)), none),
        g := g, trace := trace } := by
    induction nows with
    | nil => rfl
    | cons now rest ih =>
      have h0 := GetClient_of_valid U T now g trace (h now (List.mem_cons_self _ _))
      have ih1 := ih (fun n hn => h n (List.mem_cons_of_mem _ hn))
      simp only [GetClientSeq, h0, ih1, List.length_cons, List.replicate_succ]
  rw [hseq]
  refine ⟨fun hn => ?_, fun setter hs => ?_, authorizedBuilder_header g, ?_, ?_, rfl, rfl⟩
  · simp only [applyDefaultSetter, hn]
  · simp only [applyDefaultSetter, hs]
  · intro r hr
    rw [List.eq_of_mem_replicate hr]
    exact ⟨rfl, by simp⟩
  · simp

/-- Witness of amended C7: three calls on a token valid until 3600, at times 10, 20 and 3599,
on a client without default setter; each returned builder carries the header `OLD`. -/
theorem GetClient_idempotent_on_valid_token_witness :
    validClient.defaultSetter = none ∧
    (GetClientSeq goURL okTransport [10, 20, 3599] validClient []).val.map
      (fun r => (r.1.map (fun b => Values.Get b.header "Authorization"), r.2)) =
      [(some ["OLD"], none), (some ["OLD"], none), (some ["OLD"], none)] ∧
    (GetClientSeq goURL okTransport [10, 20, 3599] validClient []).val =
      List.replicate 3 (some (authorizedBuilder validClient), none) ∧
    (GetClientSeq goURL okTransport [10, 20, 3599] validClient []).g = validClient ∧
    (GetClientSeq goURL okTransport [10, 20, 3599] validClient []).trace = [] :=
  ⟨rfl, by decide,
    (GetClient_idempotent_on_valid_token goURL okTransport [10, 20, 3599] validClient []
      (by decide)).1 rfl,
    (GetClient_idempotent_on_valid_token goURL okTransport [10, 20, 3599] validClient []
      (by decide)).2.2.2.2.2.1,
    (GetClient_idempotent_on_valid_token goURL okTransport [10, 20, 3599] validClient []
      (by decide)).2.2.2.2.2.2⟩

/-- C6 as stated fails in two ways.  A client without tenant ID whose (zero) token wants to be
refreshed: `GetClient` fails and sends no request at all, not exactly one.  A client whose setter
of defaults returns a fresh builder: the refresh succeeds, and the returned builder carries
no `Authorization` header, although the header was set from the new token `AAA` before the
setter ran. -/
theorem GetClient_refresh_counterexample :
    (noTenantClient.token.WantsToBeRefreshed 5000 = true ∧
      (GetClient goURL okTransport 5000 noTenantClient []).val = (none, some "tenant ID is empty") ∧
      (GetClient goURL okTransport 5000 noTenantClient []).trace = []) ∧
    (freshSetterClient.token.WantsToBeRefreshed 5000 = true ∧
      (GetClient goURL okTransport 5000 freshSetterClient []).val.2 = none ∧
      (GetClient goURL okTransport 5000 freshSetterClient []).g.token.GetAccessToken = "AAA" ∧
      (GetClient goURL okTransport 5000 freshSetterClient []).val.1.map
        (fun b => Values.Get b.header "Authorization") = some []) := by
  decide

/-- C6, amended: for every client with a non-empty tenant ID whose stored token wants to be
refreshed, one call of `GetClient` sends exactly one request, the token request; and when the
refresh succeeds, the stored token is the newly decoded one and the builder on which `GetClient`
set the `Authorization` header (returned after the default setter, if any, was applied to it)
carries `GetAccessToken()` of the newly decoded token. -/
theorem GetClient_refresh_precedes_header (U : NetURL) (T : Transport) (now : Nat) (g : Client)
    (trace : List Request) (hT : g.tenantID ≠ "")
    (hWants : g.token.WantsToBeRefreshed now = true) :
    (GetClient U T now g trace).trace = trace ++ [tokenRequest U g] ∧
    ((GetClient U T now g trace).val.2 = none →
      (GetClient U T now g trace).g.token = (T trace (tokenRequest U g)).newToken ∧
      (GetClient U T now g trace).val.1 =
        some (applyDefaultSetter g (authorizedBuilder (GetClient U T now g trace).g)) ∧
      Values.Get (authorizedBuilder (GetClient U T now g trace).g).header "Authorization" =
        [(T trace (tokenRequest U g)).newToken.GetAccessToken]) := by
  cases he : (refreshToken U T g trace).val with
  | some e =>
    rw [GetClient_of_refresh_error U T now g trace e hWants he]
    exact ⟨refreshToken_trace U T g trace hT, fun h => by simp at h⟩
  | none =>
    rw [GetClient_of_refresh_ok U T now g trace hWants he]
    have hok := refreshToken_ok U T g trace he
    refine ⟨hok.2.2, fun _ => ⟨by rw [hok.2.1], ?_, ?_⟩⟩
    · simp only [hok.2.1, applyDefaultSetter]
    · rw [authorizedBuilder_header, hok.2.1]

/-- Witness of amended C6: the stale token `OLD` expired at 3600, the call at 5000 refreshes
once and the header is the new token `AAA`. -/
theorem GetClient_refresh_precedes_header_witness :
    (GetClient goURL okTransport 5000 validClient []).trace = [tokenRequest goURL validClient] ∧
    (GetClient goURL okTransport 5000 validClient []).val.1.map
      (fun b => Values.Get b.header "Authorization") = some ["AAA"] ∧
    ((GetClient goURL okTransport 5000 validClient []).val.2 = none →
      (GetClient goURL okTransport 5000 validClient []).g.token =
        (okTransport [] (tokenRequest goURL validClient)).newToken ∧
      (GetClient goURL okTransport 5000 validClient []).val.1 =
        some (applyDefaultSetter validClient
          (authorizedBuilder (GetClient goURL okTransport 5000 validClient []).g)) ∧
      Values.Get (authorizedBuilder (GetClient goURL okTransport 5000 validClient []).g).header
        "Authorization" = [(okTransport [] (tokenRequest goURL validClient)).newToken.GetAccessToken]) :=
  ⟨(GetClient_refresh_precedes_header goURL okTransport 5000 validClient [] (by decide)
      (by decide)).1,
    by decide,
    (GetClient_refresh_precedes_header goURL okTransport 5000 validClient [] (by decide)
      (by decide)).2⟩

/-- C8 on the code: the token endpoint answers with `error` = `invalid_client` and
`error_description` = `100% bad secret`, without transport error.  The message of the returned
error is not the text `invalid_client: 100% bad secret`: the text built by `Sprintf` goes
through `Errorf` as a format string, where `% b` is read as a directive without operand.  The
description does not occur in the message. -/
theorem refreshToken_percent_in_description :
    (percentTransport [] (tokenRequest goURL sampleClient)).err = none ∧
    (percentTransport [] (tokenRequest goURL sampleClient)).errResult.Error = "invalid_client" ∧
    (percentTransport [] (tokenRequest goURL sampleClient)).errResult.ErrorDescription =
      "100% bad secret" ∧
    (refreshToken goURL percentTransport sampleClient []).val =
      some "invalid_client: 100%!b(MISSING)ad secret" ∧
    (refreshToken goURL percentTransport sampleClient []).val ≠
      some ("invalid_client" ++ ": " ++ "100% bad secret") ∧
    ¬ List.IsInfix "100% bad secret".data "invalid_client: 100%!b(MISSING)ad secret".data := by
  decide

/-- Where the bug of C8 does not show: when neither the error code nor the description contains
a percent sign, the message of the returned error is the code, then `: `, then the
description. -/
theorem refreshToken_error_message_of_no_percent (U : NetURL) (T : Transport) (g : Client)
    (trace : List Request) (hT : g.tenantID ≠ "")
    (hErr : (T trace (tokenRequest U g)).err = none)
    (hField : (T trace (tokenRequest U g)).errResult.Error ≠ "")
    (hE : '%' ∉ (T trace (tokenRequest U g)).errResult.Error.data)
    (hD : '%' ∉ (T trace (tokenRequest U g)).errResult.ErrorDescription.data) :
    (refreshToken U T g trace).val =
      some ((T trace (tokenRequest U g)).errResult.Error ++ ": " ++
        (T trace (tokenRequest U g)).errResult.ErrorDescription) := by
  unfold refreshToken
  rw [if_neg hT]
  dsimp only
  rw [if_pos (Or.inr hField), if_neg (by simp [hErr])]
  dsimp only [Errorf0]
  rw [Sprintf0_of_no_percent]
  · rfl
  · simp [SprintfPair, String.data_append, hE, hD]

/-- C4 as stated fails: when the transport breaks, and when the tenant ID is empty, the
constructors return a non-nil error and, next to it, a client (not nil). -/
theorem constructors_return_client_with_error :
    ((NewWithCustomEndpoint goURL brokenTransport "t1" "a1" "s1" "https://login.example.com"
        "https://graph.example.com" []).1.2 = some "dial tcp: connection refused" ∧
      (NewWithCustomEndpoint goURL brokenTransport "t1" "a1" "s1" "https://login.example.com"
        "https://graph.example.com" []).1.1.isSome = true) ∧
    ((New goURL okTransport "" "a1" "s1" "https://graph.example.com" []).1.2 =
        some "tenant ID is empty" ∧
      (New goURL okTransport "" "a1" "s1" "https://graph.example.com" []).1.1.isSome = true) := by
  decide

/-- C4, amended: for every argument tuple, transport and trace, `NewWithCustomEndpoint` returns
a client (never nil) together with the result of the construction-time refresh: the returned
error is the error of `refreshToken` on the newly built client, and the returned client is that
client after the refresh.  The error is non-nil exactly when the refresh fails (empty tenant ID,
transport error, or a decoded non-empty `error` field), and then the client is returned all the
same, as it was built, holding the zero token.  `New` is `NewWithCustomEndpoint` at the global
endpoint. -/
theorem constructors_return_client_and_refresh_result (U : NetURL) (T : Transport)
    (tenantID applicationID clientSecret azureADAuthEndpoint resource : String)
    (trace : List Request) :
    (NewWithCustomEndpoint U T tenantID applicationID clientSecret azureADAuthEndpoint resource
        trace).1.1 =
      some (refreshToken U T
        (constructedClient tenantID applicationID clientSecret azureADAuthEndpoint resource)
        trace).g ∧
    (NewWithCustomEndpoint U T tenantID applicationID clientSecret azureADAuthEndpoint resource
        trace).1.2 =
      (refreshToken U T
        (constructedClient tenantID applicationID clientSecret azureADAuthEndpoint resource)
        trace).val ∧
    (NewWithCustomEndpoint U T tenantID applicationID clientSecret azureADAuthEndpoint resource
        trace).2 =
      (refreshToken U T
        (constructedClient tenantID applicationID clientSecret azureADAuthEndpoint resource)
        trace).trace ∧
    ((NewWithCustomEndpoint U T tenantID applicationID clientSecret azureADAuthEndpoint resource
        trace).1.2 ≠ none ↔
      (tenantID = "" ∨
        (T trace (tokenRequest U (constructedClient tenantID applicationID clientSecret
          azureADAuthEndpoint resource))).err ≠ none ∨
        (T trace (tokenRequest U (constructedClient tenantID applicationID clientSecret
          azureADAuthEndpoint resource))).errResult.Error ≠ "")) ∧
    ((NewWithCustomEndpoint U T tenantID applicationID clientSecret azureADAuthEndpoint resource
        trace).1.2 ≠ none →
      (NewWithCustomEndpoint U T tenantID applicationID clientSecret azureADAuthEndpoint resource
        trace).1.1 =
        some (constructedClient tenantID applicationID clientSecret azureADAuthEndpoint
          resource)) ∧
    (constructedClient tenantID applicationID clientSecret azureADAuthEndpoint resource).token =
      Token.zero ∧
    New U T tenantID applicationID clientSecret resource trace =
      NewWithCustomEndpoint U T tenantID applicationID clientSecret AzureADAuthEndpointGlobal
        resource trace := by
  refine ⟨rfl, rfl, rfl, ?_, ?_, rfl, rfl⟩
  · exact refreshToken_fails_iff U T
      (constructedClient tenantID applicationID clientSecret azureADAuthEndpoint resource) trace
  · intro h
    exact congrArg some (refreshToken_fail_client U T
      (constructedClient tenantID applicationID clientSecret azureADAuthEndpoint resource) trace h)

/-- Instances of amended C4: with a broken transport the constructor returns the error of the
transport, and with a rejecting token endpoint the error built from the error body; both times
the client is returned as it was built. -/
theorem constructors_return_client_and_refresh_result_witness :
    (NewWithCustomEndpoint goURL brokenTransport "t1" "a1" "s1" "https://login.example.com"
      "https://graph.example.com" []).1.2 = some "dial tcp: connection refused" ∧
    (NewWithCustomEndpoint goURL rejectingTransport "t1" "a1" "s1" "https://login.example.com"
      "https://graph.example.com" []).1.2 = some "invalid_client: bad secret" ∧
    (NewWithCustomEndpoint goURL rejectingTransport "t1" "a1" "s1" "https://login.example.com"
      "https://graph.example.com" []).1.1 =
      some (constructedClient "t1" "a1" "s1" "https://login.example.com"
        "https://graph.example.com") :=
  ⟨by decide, by decide,
    (constructors_return_client_and_refresh_result goURL rejectingTransport "t1" "a1" "s1"
      "https://login.example.com" "https://graph.example.com" []).2.2.2.2.1 (by decide)⟩

/-- C10 on the code: the token endpoint answers 204 without a body, so nothing is decoded and
no error is returned.  Construction returns a nil error after one request, and the stored token
of the returned client is the zero token, with the empty access-token string: no token was
grabbed, and no error tells the caller so. -/
theorem construction_succeeds_with_empty_token :
    (NewWithCustomEndpoint goURL noContentTransport "t1" "a1" "s1" "https://login.example.com"
      "https://graph.example.com" []).1.2 = none ∧
    (NewWithCustomEndpoint goURL noContentTransport "t1" "a1" "s1" "https://login.example.com"
      "https://graph.example.com" []).1.1.map (fun g => g.token) = some Token.zero ∧
    (NewWithCustomEndpoint goURL noContentTransport "t1" "a1" "s1" "https://login.example.com"
      "https://graph.example.com" []).1.1.map (fun g => g.token.AccessToken) = some "" ∧
    (NewWithCustomEndpoint goURL noContentTransport "t1" "a1" "s1" "https://login.example.com"
      "https://graph.example.com" []).1.1.map (fun g => g.token.GetAccessToken) = some "" ∧
    (NewWithCustomEndpoint goURL noContentTransport "t1" "a1" "s1" "https://login.example.com"
      "https://graph.example.com" []).2.length = 1 ∧
    (New goURL noContentTransport "t1" "a1" "s1" "https://graph.example.com" []).1.2 = none ∧
    (New goURL noContentTransport "t1" "a1" "s1" "https://graph.example.com" []).1.1.map
      (fun g => g.token.AccessToken) = some "" := by
  decide

/-- What does hold of a construction that returns a nil error: the tenant ID is not empty,
exactly one request was made, the token request of the new client, and the stored token of the
returned client is exactly the token decoded from the response to that request. -/
theorem construction_success_stores_decoded_token (U : NetURL) (T : Transport)
    (tenantID applicationID clientSecret azureADAuthEndpoint resource : String)
    (trace : List Request)
    (h : (NewWithCustomEndpoint U T tenantID applicationID clientSecret azureADAuthEndpoint
      resource trace).1.2 = none) :
    ∃ g : Client,
      (NewWithCustomEndpoint U T tenantID applicationID clientSecret azureADAuthEndpoint resource
        trace).1.1 = some g ∧
      tenantID ≠ "" ∧
      (NewWithCustomEndpoint U T tenantID applicationID clientSecret azureADAuthEndpoint resource
        trace).2 = trace ++ [tokenRequest U g] ∧
      g.token = (T trace (tokenRequest U g)).newToken := by
  refine ⟨_, rfl, ?_⟩
  dsimp only [NewWithCustomEndpoint] at h ⊢
  have hok := refreshToken_ok U T _ trace h
  rw [hok.2.1, hok.2.2]
  exact ⟨hok.1, rfl, rfl⟩

end msauth
